import Mathlib

/-!
Shallow embedding of `src/button_firmware/src/main.cpp`: a package-notification
button device.  Global mutable state becomes a `DeviceState` record; each C++
function that mutates state becomes a Lean function from the current time
(`millis()`) and the state to the new state together with the list of
externally visible outputs (MQTT publishes and LED writes).  Machine time is
`Nat`, with the 32-bit unsigned subtraction of `millis()` differences made
explicit by `usub`.
-/

namespace EufyCam

/-- `2^32`, the modulus of Arduino `unsigned long` (`millis()`) arithmetic. -/
def U32 : Nat := 2 ^ 32

/-- 32-bit unsigned subtraction `a - b`, as C computes it on `unsigned long`. -/
def usub (a b : Nat) : Nat := (U32 + a % U32 - b % U32) % U32

/-- `LED_FLASH_INTERVAL_MS` from the source. -/
def LED_FLASH_INTERVAL_MS : Nat := 500

/-- `COOLDOWN_DURATION_MS` from the source: 2 minutes. -/
def COOLDOWN_DURATION_MS : Nat := 2 * 60 * 1000

/-- `DEBOUNCE_DELAY_MS` from the source. -/
def DEBOUNCE_DELAY_MS : Nat := 50

/-- The mutable globals of `main.cpp` gathered into one record:
`packageExists`, `inCooldown`, `cooldownStartTime`, `lastLedToggle`,
`ledState`, `lastButtonPressed`, `lastDebounceTime`. -/
structure DeviceState where
  packageExists : Bool
  inCooldown : Bool
  cooldownStartTime : Nat
  lastLedToggle : Nat
  ledState : Bool
  lastButtonPressed : Bool
  lastDebounceTime : Nat
  deriving Repr, DecidableEq

/-- The state at process start: all globals false / zero. -/
def initState : DeviceState :=
  { packageExists := false, inCooldown := false, cooldownStartTime := 0,
    lastLedToggle := 0, ledState := false, lastButtonPressed := false,
    lastDebounceTime := 0 }

/-- The two MQTT topics the device subscribes to. -/
inductive Topic where
  | package_exists
  | user_handled
  deriving Repr, DecidableEq

/-- Externally visible side effects: an MQTT publish of the `user_handled`
acknowledgment (`publishUserHandled` in the source, carrying
`{handled: true, timestamp: millis()}`), or a write to the LED pin
(`setLed`). -/
inductive Output where
  | publishUserHandled (timestamp : Nat)
  | setLed (b : Bool)
  deriving Repr, DecidableEq

/-- Whether an output is an MQTT publish (as opposed to an LED write). -/
def Output.isPublish : Output → Bool
  | .publishUserHandled _ => true
  | .setLed _ => false

/-- The result of `deserializeJson` on an inbound payload, as the handler
consumes it: ArduinoJson's `doc["exists"] | false` yields the field's value
when it is present with boolean type and `false` otherwise, so a decoded
document is modelled by the two optional boolean fields the handler reads. -/
structure JsonDoc where
  existsField : Option Bool
  handledField : Option Bool
  deriving Repr, DecidableEq

/-- An inbound payload: either undecodable (`deserializeJson` reports an
error) or a decoded document. -/
inductive Payload where
  | malformed
  | decoded (doc : JsonDoc)
  deriving Repr, DecidableEq

/-- `handleButtonPress` (main.cpp:83-94): publish the acknowledgment, enter
cooldown with `cooldownStartTime = millis()`, and turn the LED off. -/
def handleButtonPress (now : Nat) (s : DeviceState) : DeviceState × List Output :=
  ({ s with inCooldown := true, cooldownStartTime := now, ledState := false },
   [Output.publishUserHandled now, Output.setLed false])

/-- `callback` (main.cpp:96-140), the MQTT message handler.  A malformed
payload returns before touching state.  On `package_exists`,
`packageExists` is set to `doc["exists"] | false`; if that is false,
cooldown is cleared and the LED turned off.  On `user_handled`, if
`doc["handled"] | false` is true the device enters cooldown with
`cooldownStartTime = millis()` and the LED is turned off. -/
def callback (topic : Topic) (payload : Payload) (now : Nat) (s : DeviceState) :
    DeviceState × List Output :=
  match payload with
  | .malformed => (s, [])
  | .decoded doc =>
    match topic with
    | .package_exists =>
      let ex := doc.existsField.getD false
      if ex then
        ({ s with packageExists := true }, [])
      else
        ({ s with packageExists := false, inCooldown := false, ledState := false },
         [Output.setLed false])
    | .user_handled =>
      let handled := doc.handledField.getD false
      if handled then
        ({ s with inCooldown := true, cooldownStartTime := now, ledState := false },
         [Output.setLed false])
      else
        (s, [])

/-- `updateLed` (main.cpp:166-183): with no package or in cooldown, turn the
LED off once if it is on; otherwise toggle it whenever at least
`LED_FLASH_INTERVAL_MS` has elapsed since `lastLedToggle`. -/
def updateLed (now : Nat) (s : DeviceState) : DeviceState × List Output :=
  if !s.packageExists || s.inCooldown then
    if s.ledState then
      ({ s with ledState := false }, [Output.setLed false])
    else
      (s, [])
  else
    if LED_FLASH_INTERVAL_MS ≤ usub now s.lastLedToggle then
      ({ s with lastLedToggle := now, ledState := !s.ledState },
       [Output.setLed (!s.ledState)])
    else
      (s, [])

/-- `checkCooldown` (main.cpp:185-194): while in cooldown, clear it once
`millis() - cooldownStartTime >= COOLDOWN_DURATION_MS`.  It performs no
publish and no LED write. -/
def checkCooldown (now : Nat) (s : DeviceState) : DeviceState × List Output :=
  if s.inCooldown then
    if COOLDOWN_DURATION_MS ≤ usub now s.cooldownStartTime then
      ({ s with inCooldown := false }, [])
    else
      (s, [])
  else
    (s, [])

/-- `checkButton` (main.cpp:196-215): sample the button; if the raw reading
differs from `lastButtonPressed`, reset `lastDebounceTime` to now; if more
than `DEBOUNCE_DELAY_MS` has elapsed since `lastDebounceTime` and the reading
is a rising edge relative to `lastButtonPressed`, and the device is alerting
(`packageExists && !inCooldown`), run `handleButtonPress`; finally record the
raw reading in `lastButtonPressed`. -/
def checkButton (now : Nat) (pressed : Bool) (s : DeviceState) :
    DeviceState × List Output :=
  let s1 := if pressed != s.lastButtonPressed then
              { s with lastDebounceTime := now }
            else s
  let r :=
    if DEBOUNCE_DELAY_MS < usub now s1.lastDebounceTime then
      if pressed && !s1.lastButtonPressed then
        if s1.packageExists && !s1.inCooldown then
          handleButtonPress now s1
        else (s1, [])
      else (s1, [])
    else (s1, [])
  ({ r.1 with lastButtonPressed := pressed }, r.2)

/-- One externally triggered step of the device: an inbound MQTT message
(delivered by `client.loop()`), a button sample, the cooldown check, or the
LED update — the events the polling loop and the subscription callback feed
into the shared state. -/
inductive Event where
  | msg (topic : Topic) (payload : Payload) (now : Nat)
  | button (pressed : Bool) (now : Nat)
  | cooldownTick (now : Nat)
  | ledTick (now : Nat)
  deriving Repr, DecidableEq

/-- The state transition of a single event (outputs discarded). -/
def step (s : DeviceState) (e : Event) : DeviceState :=
  match e with
  | .msg t p now => (callback t p now s).1
  | .button pr now => (checkButton now pr s).1
  | .cooldownTick now => (checkCooldown now s).1
  | .ledTick now => (updateLed now s).1

/-- The state after running a sequence of events from process start. -/
def run (es : List Event) : DeviceState := es.foldl step initState

/-- Whether an event delivers an `Acknowledged` fact: an inbound
`user_handled` message whose decoded `handled` field is true. -/
def Event.isAck : Event → Bool
  | .msg .user_handled (.decoded doc) _ => doc.handledField.getD false
  | _ => false

/-- States reachable from `initState` by sequences in which every
`Acknowledged` message is delivered while `packageExists` is true. -/
inductive ReachableAck : DeviceState → Prop where
  | init : ReachableAck initState
  | next (s : DeviceState) (e : Event) (hs : ReachableAck s)
      (hack : e.isAck = true → s.packageExists = true) :
      ReachableAck (step s e)

/-- The final state and the outputs, in order, of running `updateLed` at each
time in a schedule (the indicator driver polled at given instants). -/
def runLed (times : List Nat) (s : DeviceState) : DeviceState × List Output :=
  match times with
  | [] => (s, [])
  | t :: ts =>
    let r := updateLed t s
    let rest := runLed ts r.1
    (rest.1, r.2 ++ rest.2)

/-- A 100 ms polling cadence covering two flash intervals after `t0`. -/
def ledSchedule (t0 : Nat) : List Nat :=
  [t0 + 100, t0 + 200, t0 + 300, t0 + 400, t0 + 500,
   t0 + 600, t0 + 700, t0 + 800, t0 + 900, t0 + 1000]

/-- The final state and the outputs of sampling the button (`checkButton`)
at a sequence of `(time, raw reading)` pairs. -/
def runButtons (samples : List (Nat × Bool)) (s : DeviceState) :
    DeviceState × List Output :=
  match samples with
  | [] => (s, [])
  | (t, pr) :: rest =>
    let r := checkButton t pr s
    let r2 := runButtons rest r.1
    (r2.1, r.2 ++ r2.2)

/-- A state already in cooldown (for the idempotence claim): package present,
cooldown entered at time 0. -/
def cooldownState : DeviceState :=
  { initState with packageExists := true, inCooldown := true }

/-- A state in `Alerting`: package present, not in cooldown. -/
def alertState : DeviceState :=
  { initState with packageExists := true }

/-- Button samples showing a genuine, stable press: released at 0, pressed
from 100 ms on, and still held (stable) well past `DEBOUNCE_DELAY_MS`. -/
def stablePressSamples : List (Nat × Bool) :=
  [(0, false), (100, true), (160, true), (200, true), (300, true)]

/-! ### Helper lemmas about 32-bit time differences -/

theorem U32_eq : U32 = 4294967296 := rfl

/-- Unsigned subtraction recovers an elapsed duration below the wrap period:
`(x + d) - x = d` in 32-bit arithmetic whenever `d < 2^32`. -/
theorem usub_add (x d : Nat) (h : d < U32) : usub (x + d) x = d := by
  simp only [usub, U32_eq] at *
  omega

/-- `usub (x + a) (x + b) = a - b` for `b ≤ a` with `a - b` below the wrap
period. -/
theorem usub_add_add (x a b : Nat) (hba : b ≤ a) (h : a - b < U32) :
    usub (x + a) (x + b) = a - b := by
  have hx : x + a = (x + b) + (a - b) := by omega
  rw [hx, usub_add _ _ h]

/-- `x - x = 0` in 32-bit arithmetic. -/
theorem usub_self (x : Nat) : usub x x = 0 := by
  have := usub_add x 0 (by simp [U32_eq])
  simpa using this

/-! ### Helper lemmas about the embedded functions -/

/-- `checkButton` can never reach `handleButtonPress`: whenever the sample is
a rising edge relative to `lastButtonPressed`, the raw reading just changed,
so `lastDebounceTime` was reset to `now` in the same call and the stability
test `millis() - lastDebounceTime > DEBOUNCE_DELAY_MS` fails.  Hence every
call only records the raw sample and possibly the debounce timestamp. -/
theorem checkButton_run (now : Nat) (pressed : Bool) (s : DeviceState) :
    checkButton now pressed s =
      ({ s with lastButtonPressed := pressed,
                lastDebounceTime :=
                  if pressed != s.lastButtonPressed then now
                  else s.lastDebounceTime }, []) := by
  obtain ⟨pe, ic, cst, llt, ls, lbp, ldt⟩ := s
  cases pressed <;> cases lbp <;>
    simp [checkButton, usub_self, DEBOUNCE_DELAY_MS, handleButtonPress]

/-- In the flashing regime, a poll before the interval has elapsed changes
nothing and emits nothing. -/
theorem updateLed_flash_lt (now : Nat) (s : DeviceState)
    (h1 : s.packageExists = true) (h2 : s.inCooldown = false)
    (h3 : usub now s.lastLedToggle < LED_FLASH_INTERVAL_MS) :
    updateLed now s = (s, []) := by
  simp [updateLed, h1, h2, Nat.not_le.mpr h3]

/-- In the flashing regime, a poll at or after the interval toggles the LED
and records the toggle time. -/
theorem updateLed_flash_ge (now : Nat) (s : DeviceState)
    (h1 : s.packageExists = true) (h2 : s.inCooldown = false)
    (h3 : LED_FLASH_INTERVAL_MS ≤ usub now s.lastLedToggle) :
    updateLed now s =
      ({ s with lastLedToggle := now, ledState := !s.ledState },
       [Output.setLed (!s.ledState)]) := by
  simp [updateLed, h1, h2, h3]

/-- A non-toggling poll drops out of a `runLed` schedule. -/
theorem runLed_skip (t : Nat) (ts : List Nat) (s : DeviceState)
    (h1 : s.packageExists = true) (h2 : s.inCooldown = false)
    (h3 : usub t s.lastLedToggle < LED_FLASH_INTERVAL_MS) :
    runLed (t :: ts) s = runLed ts s := by
  simp [runLed, updateLed_flash_lt t s h1 h2 h3]

/-- A toggling poll contributes one `setLed` output to a `runLed` schedule. -/
theorem runLed_toggle (t : Nat) (ts : List Nat) (s : DeviceState)
    (h1 : s.packageExists = true) (h2 : s.inCooldown = false)
    (h3 : LED_FLASH_INTERVAL_MS ≤ usub t s.lastLedToggle) :
    runLed (t :: ts) s =
      ((runLed ts { s with lastLedToggle := t, ledState := !s.ledState }).1,
       Output.setLed (!s.ledState) ::
         (runLed ts { s with lastLedToggle := t, ledState := !s.ledState }).2) := by
  simp [runLed, updateLed_flash_ge t s h1 h2 h3]

/-- `checkCooldown` never changes `packageExists`. -/
theorem checkCooldown_fst_packageExists (now : Nat) (s : DeviceState) :
    (checkCooldown now s).1.packageExists = s.packageExists := by
  unfold checkCooldown
  split
  · split <;> rfl
  · rfl

/-- `checkCooldown` never sets `inCooldown`; it can only clear it. -/
theorem checkCooldown_inCooldown_mono (now : Nat) (s : DeviceState)
    (h : (checkCooldown now s).1.inCooldown = true) : s.inCooldown = true := by
  unfold checkCooldown at h
  split at h
  · split at h <;> simp_all
  · simp_all

/-- `updateLed` never changes `packageExists` or `inCooldown`. -/
theorem updateLed_same_flags (now : Nat) (s : DeviceState) :
    (updateLed now s).1.packageExists = s.packageExists ∧
    (updateLed now s).1.inCooldown = s.inCooldown := by
  unfold updateLed
  split <;> split <;> simp

/-! ### The claims -/

/-- **C1**, counterexample.  The claim says an `Acknowledged` delivered while
already in cooldown leaves the entire state unchanged.  It does not: from
`cooldownState` (cooldown entered at time 0), an acknowledgment delivered at
time 1000 overwrites `cooldownStartTime`, and acknowledging at time 0 and
then again at time 1000 differs from acknowledging once at time 0 — the
`user_handled` handler re-enters cooldown unconditionally. -/
theorem c1_counterexample :
    cooldownState.inCooldown = true ∧
    (callback Topic.user_handled (Payload.decoded ⟨none, some true⟩) 1000
        cooldownState).1 ≠ cooldownState ∧
    (callback Topic.user_handled (Payload.decoded ⟨none, some true⟩) 1000
        (callback Topic.user_handled (Payload.decoded ⟨none, some true⟩) 0
          cooldownState).1).1
      ≠ (callback Topic.user_handled (Payload.decoded ⟨none, some true⟩) 0
          cooldownState).1 := by
  decide

/-- **C1**, amended.  While in cooldown, an `Acknowledged` message re-enters
cooldown with `cooldownStartTime` reset to the delivery time — the *last*
acknowledgment wins — leaving `packageExists` untouched; and delivering twice
in a row produces the same state as delivering once *at the second
delivery time*. -/
theorem c1_amended (s : DeviceState) (ef ef1 ef2 : Option Bool) (t t1 t2 : Nat)
    (h : s.inCooldown = true) :
    (callback Topic.user_handled (Payload.decoded ⟨ef, some true⟩) t s).1
      = { s with cooldownStartTime := t, ledState := false } ∧
    (callback Topic.user_handled (Payload.decoded ⟨ef2, some true⟩) t2
        (callback Topic.user_handled (Payload.decoded ⟨ef1, some true⟩) t1 s).1).1
      = (callback Topic.user_handled (Payload.decoded ⟨ef2, some true⟩) t2 s).1 := by
  obtain ⟨pe, ic, cst, llt, ls, lbp, ldt⟩ := s
  subst h
  simp [callback]

/-- Witness for `c1_amended` at `cooldownState`, times 4 and 9. -/
theorem c1_amended_witness :
    cooldownState.inCooldown = true ∧
    ((callback Topic.user_handled (Payload.decoded ⟨none, some true⟩) 9
        cooldownState).1
       = { cooldownState with cooldownStartTime := 9, ledState := false } ∧
     (callback Topic.user_handled (Payload.decoded ⟨none, some true⟩) 9
        (callback Topic.user_handled (Payload.decoded ⟨none, some true⟩) 4
          cooldownState).1).1
       = (callback Topic.user_handled (Payload.decoded ⟨none, some true⟩) 9
          cooldownState).1) :=
  ⟨rfl, c1_amended cooldownState none none none 9 4 9 rfl⟩

/-- **C2**, counterexample.  The invariant `inCooldown → packageExists` fails
on a reachable state: a single `Acknowledged` message delivered in the
initial (Idle) state yields `inCooldown = true` with `packageExists = false`,
because the `user_handled` handler never consults `packageExists`. -/
theorem c2_counterexample :
    (run [Event.msg Topic.user_handled (Payload.decoded ⟨none, some true⟩) 5]).inCooldown
      = true ∧
    (run [Event.msg Topic.user_handled (Payload.decoded ⟨none, some true⟩) 5]).packageExists
      = false := by
  decide

/-- **C2**, amended.  Restricted to runs in which every `Acknowledged`
message arrives while `packageExists` is true, every reachable state
satisfies `inCooldown = true → packageExists = true`. -/
theorem c2_amended (s : DeviceState) (hr : ReachableAck s)
    (hc : s.inCooldown = true) : s.packageExists = true := by
  induction hr with
  | init => exact absurd hc (by decide)
  | next s' e hs hack ih =>
    cases e with
    | msg topic p now =>
      cases p with
      | malformed =>
        cases topic <;> exact ih (by simpa [step, callback] using hc)
      | decoded doc =>
        cases topic with
        | package_exists =>
          by_cases hex : doc.existsField.getD false = true
          · simp [step, callback, hex]
          · simp [step, callback, hex] at hc
        | user_handled =>
          by_cases hh : doc.handledField.getD false = true
          · have hpe := hack (by simp [Event.isAck, hh])
            simp [step, callback, hh, hpe]
          · simp only [step, callback, hh, if_neg] at hc ⊢
            simp [hh] at hc ⊢
            exact ih hc
    | button pr now =>
      simp [step, checkButton_run] at hc ⊢
      exact ih hc
    | cooldownTick now =>
      simp only [step] at hc ⊢
      rw [checkCooldown_fst_packageExists]
      exact ih (checkCooldown_inCooldown_mono now s' hc)
    | ledTick now =>
      obtain ⟨hp, hic⟩ := updateLed_same_flags now s'
      simp only [step] at hc ⊢
      rw [hic] at hc
      rw [hp]
      exact ih hc

/-- Witness for `c2_amended`: existence arrives, then an acknowledgment while
the package exists; the resulting cooldown state has the package. -/
theorem c2_amended_witness :
    (step (step initState
        (Event.msg Topic.package_exists (Payload.decoded ⟨some true, none⟩) 3))
        (Event.msg Topic.user_handled (Payload.decoded ⟨none, some true⟩) 4)).packageExists
      = true :=
  c2_amended _
    (ReachableAck.next _ _
      (ReachableAck.next _ _ ReachableAck.init (by decide)) (by decide))
    (by decide)

/-- **C3**, counterexample.  An `Acknowledged` arriving in Idle is not a
no-op: from the initial state (Idle) it flips `inCooldown` to true. -/
theorem c3_counterexample :
    initState.packageExists = false ∧ initState.inCooldown = false ∧
    (callback Topic.user_handled (Payload.decoded ⟨none, some true⟩) 7
        initState).1.inCooldown = true := by
  decide

/-- **C3**, amended.  An `Acknowledged` arriving while `packageExists` is
false leaves `packageExists` false but *enters cooldown*: `inCooldown`
becomes true, `cooldownStartTime` is set to the arrival time, and the LED is
switched off. -/
theorem c3_amended (s : DeviceState) (ef : Option Bool) (t : Nat)
    (h : s.packageExists = false) :
    (callback Topic.user_handled (Payload.decoded ⟨ef, some true⟩) t s).1
      = { s with inCooldown := true, cooldownStartTime := t, ledState := false } ∧
    (callback Topic.user_handled (Payload.decoded ⟨ef, some true⟩) t s).1.packageExists
      = false ∧
    (callback Topic.user_handled (Payload.decoded ⟨ef, some true⟩) t s).2
      = [Output.setLed false] := by
  simp [callback, h]

/-- Witness for `c3_amended` at the initial state, arrival time 7. -/
theorem c3_amended_witness :
    initState.packageExists = false ∧
    ((callback Topic.user_handled (Payload.decoded ⟨none, some true⟩) 7 initState).1
       = { initState with inCooldown := true, cooldownStartTime := 7,
                          ledState := false } ∧
     (callback Topic.user_handled (Payload.decoded ⟨none, some true⟩) 7
        initState).1.packageExists = false ∧
     (callback Topic.user_handled (Payload.decoded ⟨none, some true⟩) 7
        initState).2 = [Output.setLed false]) :=
  ⟨rfl, c3_amended initState none 7 rfl⟩

/-- **C4** (code bug): the debouncer can never confirm a press.  First
conjunct: no call to `checkButton` ever produces an output — a rising raw
edge always resets `lastDebounceTime` in the very call that then tests
`millis() - lastDebounceTime > DEBOUNCE_DELAY_MS`, so the press branch is
dead code.  Second and third: on the concrete genuine, stable press of
`stablePressSamples` (raw reading goes true at 100 ms and stays true far
longer than `DEBOUNCE_DELAY_MS`) with the device in `Alerting`, nothing is
published and the device never enters cooldown, where the claim demands
exactly one edge produced and acted upon. -/
theorem c4_press_never_detected :
    (∀ (now : Nat) (pressed : Bool) (s : DeviceState),
        (checkButton now pressed s).2 = []) ∧
    (runButtons stablePressSamples alertState).2 = [] ∧
    (runButtons stablePressSamples alertState).1.inCooldown = false := by
  refine ⟨fun now pressed s => ?_, by decide, by decide⟩
  rw [checkButton_run]

/-- **C5**.  A confirmed rising edge delivered in `Alerting`
(`handleButtonPress`, the code's handler for it) moves the state to Cooldown
(`inCooldown` true, `cooldownStartTime = now`), publishes exactly one
`Acknowledged` message, and switches the indicator off immediately; and a
button sample while Idle or in Cooldown leaves the device state untouched
and publishes nothing (`checkButton` guards `handleButtonPress` with
`packageExists && !inCooldown`). -/
theorem c5_button_press (s s2 : DeviceState) (now now2 : Nat) (pr : Bool)
    (h1 : s.packageExists = true) (h2 : s.inCooldown = false)
    (h3 : s2.packageExists = false ∨ s2.inCooldown = true) :
    ((handleButtonPress now s).1.packageExists = true ∧
     (handleButtonPress now s).1.inCooldown = true ∧
     (handleButtonPress now s).1.cooldownStartTime = now ∧
     (handleButtonPress now s).1.ledState = false ∧
     (handleButtonPress now s).2.filter Output.isPublish
       = [Output.publishUserHandled now] ∧
     Output.setLed false ∈ (handleButtonPress now s).2) ∧
    ((checkButton now2 pr s2).1.packageExists = s2.packageExists ∧
     (checkButton now2 pr s2).1.inCooldown = s2.inCooldown ∧
     (checkButton now2 pr s2).1.cooldownStartTime = s2.cooldownStartTime ∧
     (checkButton now2 pr s2).1.ledState = s2.ledState ∧
     (checkButton now2 pr s2).2 = []) := by
  constructor
  · simp [handleButtonPress, Output.isPublish, h1]
  · rw [checkButton_run]
    simp

/-- Witness for `c5_button_press`: the `Alerting` state with a press handled
at time 10, and the initial (Idle) state sampled at time 20. -/
theorem c5_button_press_witness :
    alertState.packageExists = true ∧ initState.packageExists = false ∧
    (((handleButtonPress 10 alertState).1.packageExists = true ∧
      (handleButtonPress 10 alertState).1.inCooldown = true ∧
      (handleButtonPress 10 alertState).1.cooldownStartTime = 10 ∧
      (handleButtonPress 10 alertState).1.ledState = false ∧
      (handleButtonPress 10 alertState).2.filter Output.isPublish
        = [Output.publishUserHandled 10] ∧
      Output.setLed false ∈ (handleButtonPress 10 alertState).2) ∧
     ((checkButton 20 true initState).1.packageExists = initState.packageExists ∧
      (checkButton 20 true initState).1.inCooldown = initState.inCooldown ∧
      (checkButton 20 true initState).1.cooldownStartTime
        = initState.cooldownStartTime ∧
      (checkButton 20 true initState).1.ledState = initState.ledState ∧
      (checkButton 20 true initState).2 = [])) :=
  ⟨rfl, rfl,
   c5_button_press alertState initState 10 20 true rfl rfl (Or.inl rfl)⟩

/-- **C6**.  `ExistenceChanged{exists: false}` unconditionally clears both
`packageExists` and `inCooldown` — Cooldown or Alerting drops to Idle even
while a cooldown deadline is running — and publishes nothing (the only
output is an LED write). -/
theorem c6_existence_false (s : DeviceState) (hf : Option Bool) (now : Nat) :
    (callback Topic.package_exists (Payload.decoded ⟨some false, hf⟩) now
        s).1.packageExists = false ∧
    (callback Topic.package_exists (Payload.decoded ⟨some false, hf⟩) now
        s).1.inCooldown = false ∧
    (callback Topic.package_exists (Payload.decoded ⟨some false, hf⟩) now
        s).2.filter Output.isPublish = [] := by
  simp [callback, Output.isPublish]

/-- **C7**.  With cooldown started at `t0`, a tick at `t0 + 119999` changes
nothing (still in cooldown), while a tick at `t0 + d` for any
`120000 ≤ d < 2^32` clears `inCooldown`, leaves `packageExists` as it was
(Cooldown drops to Alerting if the package still exists, else Idle), and
emits no message. -/
theorem c7_cooldown_expiry (s : DeviceState) (t0 d : Nat)
    (hc : s.inCooldown = true) (hst : s.cooldownStartTime = t0)
    (hd1 : 120000 ≤ d) (hd2 : d < U32) :
    checkCooldown (t0 + 119999) s = (s, []) ∧
    (checkCooldown (t0 + d) s).1.inCooldown = false ∧
    (checkCooldown (t0 + d) s).1.packageExists = s.packageExists ∧
    (checkCooldown (t0 + d) s).2 = [] := by
  subst hst
  have e1 : usub (s.cooldownStartTime + 119999) s.cooldownStartTime = 119999 :=
    usub_add _ _ (by decide)
  have e2 : usub (s.cooldownStartTime + d) s.cooldownStartTime = d :=
    usub_add _ _ hd2
  have hlt : ¬ (COOLDOWN_DURATION_MS
      ≤ usub (s.cooldownStartTime + 119999) s.cooldownStartTime) := by
    rw [e1]
    decide
  have hge : COOLDOWN_DURATION_MS
      ≤ usub (s.cooldownStartTime + d) s.cooldownStartTime := by
    rw [e2]
    simpa [COOLDOWN_DURATION_MS] using hd1
  simp [checkCooldown, hc, hlt, hge]

/-- Witness for `c7_cooldown_expiry`: cooldown entered at time 0, ticks at
119999 and 120000. -/
theorem c7_cooldown_expiry_witness :
    cooldownState.inCooldown = true ∧
    (checkCooldown (0 + 119999) cooldownState = (cooldownState, []) ∧
     (checkCooldown (0 + 120000) cooldownState).1.inCooldown = false ∧
     (checkCooldown (0 + 120000) cooldownState).1.packageExists
       = cooldownState.packageExists ∧
     (checkCooldown (0 + 120000) cooldownState).2 = []) :=
  ⟨rfl, c7_cooldown_expiry cooldownState 0 120000 rfl rfl (by decide) (by decide)⟩

/-- **C8**.  A malformed (undecodable) payload on either topic is dropped:
`callback` returns with the state exactly as it was and no output — no
publish and no LED write. -/
theorem c8_malformed_dropped (topic : Topic) (now : Nat) (s : DeviceState) :
    callback topic Payload.malformed now s = (s, []) := rfl

/-- **C9**.  First conjunct: after `ExistenceChanged{true}` arrives at `t0`
(LED off, last toggle recorded at `t0`, not in cooldown), polling the
indicator every 100 ms for two flash intervals toggles the LED exactly
twice — on at `t0 + 500`, off at `t0 + 1000`.  Remaining conjuncts: when
`shouldFlash` is false, a poll with the LED on emits `Off` once and a
subsequent poll emits nothing, and a poll with the LED already off emits
nothing at all. -/
theorem c9_indicator (s0 s2 s3 : DeviceState) (t0 t1 t2 t3 : Nat)
    (hf : Option Bool)
    (h01 : s0.inCooldown = false) (h02 : s0.ledState = false)
    (h03 : s0.lastLedToggle = t0)
    (hb2 : s2.packageExists = false ∨ s2.inCooldown = true)
    (hOn : s2.ledState = true)
    (hb3 : s3.packageExists = false ∨ s3.inCooldown = true)
    (hOff : s3.ledState = false) :
    (runLed (ledSchedule t0)
        (callback Topic.package_exists (Payload.decoded ⟨some true, hf⟩) t0
          s0).1).2
      = [Output.setLed true, Output.setLed false] ∧
    updateLed t1 s2 = ({ s2 with ledState := false }, [Output.setLed false]) ∧
    (updateLed t2 { s2 with ledState := false }).2 = [] ∧
    updateLed t3 s3 = (s3, []) := by
  obtain ⟨pe0, ic0, cst0, llt0, ls0, lbp0, ldt0⟩ := s0
  obtain ⟨pe2, ic2, cst2, llt2, ls2, lbp2, ldt2⟩ := s2
  obtain ⟨pe3, ic3, cst3, llt3, ls3, lbp3, ldt3⟩ := s3
  simp only at h01 h02 h03 hOn hOff hb2 hb3
  subst h01 h02 h03 hOn hOff
  refine ⟨?_, ?_, ?_, ?_⟩
  · have u1 : usub (llt0 + 100) llt0 = 100 := usub_add _ _ (by decide)
    have u2 : usub (llt0 + 200) llt0 = 200 := usub_add _ _ (by decide)
    have u3 : usub (llt0 + 300) llt0 = 300 := usub_add _ _ (by decide)
    have u4 : usub (llt0 + 400) llt0 = 400 := usub_add _ _ (by decide)
    have u5 : usub (llt0 + 500) llt0 = 500 := usub_add _ _ (by decide)
    have v1 : usub (llt0 + 600) (llt0 + 500) = 100 :=
      usub_add_add _ _ _ (by decide) (by decide)
    have v2 : usub (llt0 + 700) (llt0 + 500) = 200 :=
      usub_add_add _ _ _ (by decide) (by decide)
    have v3 : usub (llt0 + 800) (llt0 + 500) = 300 :=
      usub_add_add _ _ _ (by decide) (by decide)
    have v4 : usub (llt0 + 900) (llt0 + 500) = 400 :=
      usub_add_add _ _ _ (by decide) (by decide)
    have v5 : usub (llt0 + 1000) (llt0 + 500) = 500 :=
      usub_add_add _ _ _ (by decide) (by decide)
    simp [callback, runLed, updateLed, ledSchedule, LED_FLASH_INTERVAL_MS,
      u1, u2, u3, u4, u5, v1, v2, v3, v4, v5]
  · rcases hb2 with h | h <;> simp [updateLed, h]
  · rcases hb2 with h | h <;> simp [updateLed, h]
  · rcases hb3 with h | h <;> simp [updateLed, h]

/-- Witness for `c9_indicator`: existence arrives at time 0 into the initial
state, polls at 100..1000 ms; the off-once conjuncts at the initial state
with the LED forced on. -/
theorem c9_indicator_witness :
    initState.inCooldown = false ∧
    ((runLed (ledSchedule 0)
        (callback Topic.package_exists (Payload.decoded ⟨some true, none⟩) 0
          initState).1).2
       = [Output.setLed true, Output.setLed false] ∧
     updateLed 3 { initState with ledState := true }
       = ({ { initState with ledState := true } with ledState := false },
          [Output.setLed false]) ∧
     (updateLed 4 { { initState with ledState := true } with
        ledState := false }).2 = [] ∧
     updateLed 5 initState = (initState, [])) :=
  ⟨rfl,
   c9_indicator initState { initState with ledState := true } initState
     0 3 4 5 none rfl rfl rfl (Or.inl rfl) rfl (Or.inl rfl) rfl⟩

/-- **C10**.  ArduinoJson's `doc["exists"] | false` makes a decodable
`package_exists` payload without a boolean `exists` field behave exactly
like `ExistenceChanged{false}` — `packageExists` and `inCooldown` are both
cleared — unlike a malformed payload, which changes nothing; and a decodable
`user_handled` payload whose `handled` field is absent or false is a
complete no-op. -/
theorem c10_missing_field_defaults (s : DeviceState) (now : Nat)
    (hf ef : Option Bool) :
    callback Topic.package_exists (Payload.decoded ⟨none, hf⟩) now s
      = callback Topic.package_exists (Payload.decoded ⟨some false, hf⟩) now s ∧
    (callback Topic.package_exists (Payload.decoded ⟨none, hf⟩) now
        s).1.packageExists = false ∧
    (callback Topic.package_exists (Payload.decoded ⟨none, hf⟩) now
        s).1.inCooldown = false ∧
    callback Topic.package_exists Payload.malformed now s = (s, []) ∧
    callback Topic.user_handled (Payload.decoded ⟨ef, none⟩) now s = (s, []) ∧
    callback Topic.user_handled (Payload.decoded ⟨ef, some false⟩) now s
      = (s, []) := by
  simp [callback]

end EufyCam
